import Mathlib

/-!
Verification development for the legal-assistant chatbot
(`src/chatbot.py`, `src/vector_store.py`).

The Answer Orchestrator (`SmartLegalChatbot`) is embedded shallowly:

* external collaborators (the Pinecone retrieval gateway, the Gemini
  generation gateway, the index-listing call and the wall clock) are
  modelled by an `Oracle` of response/duration streams indexed by the
  number of calls made so far;
* each Python method becomes a Lean function threading an explicit
  `ChatState` (the mutable fields `_initialized`, `last_call_time`)
  and a `World` (clock, call counters, event log);
* every `try/except` of the source becomes an explicit `match` on the
  `Except` value produced by the corresponding collaborator call, at
  exactly the place where the source catches;
* wall-clock instants and durations are rationals (`ℚ`); `time.sleep`
  advances the clock by exactly the requested amount.

Strings are Lean `String`s; `_summarize_content` is implemented on the
underlying character lists (Python strings are sequences of code
points), mirroring `str.split('.')`, `str.strip` and `len`.
-/

/-- A retrieved document: `page_content` plus the `page` metadata entry.
`page = none` models a document whose metadata lacks the `page` key, in
which case Python's `doc.metadata.get('page', 'N/A')` yields `'N/A'`. -/
structure Doc where
  content : String
  page : Option Nat
  deriving Repr, DecidableEq

/-- The dictionary returned by `SmartLegalChatbot.query`. -/
structure AnswerResult where
  answer : String
  source_documents : List Doc
  deriving Repr, DecidableEq

/-- The orchestrator's mutable fields: `self._initialized` and
`self.last_call_time` (initially `0`). -/
structure ChatState where
  initialized : Bool
  lastCallTime : ℚ
  deriving Repr, DecidableEq

/-- Configuration read from the environment: `GOOGLE_API_KEY` (possibly
absent) and the Pinecone index name. -/
structure Env where
  apiKey : Option String
  indexName : String
  deriving Repr, DecidableEq

/-- Observable external events of a run, each stamped with the wall
clock: a `similarity_search(_, k)` call, a `generate_content` call
(start time, end time, whether it succeeded), a `list_indexes` call,
and a `time.sleep(d)`. -/
inductive Event where
  | searchEv (k : Nat) (t : ℚ)
  | genEv (tstart tend : ℚ) (ok : Bool)
  | listEv (t : ℚ)
  | sleepEv (d t : ℚ)
  deriving Repr, DecidableEq

/-- The world outside the orchestrator: current wall clock, how many
calls of each kind have been made, and the chronological event log. -/
structure World where
  now : ℚ
  sCnt : Nat := 0
  gCnt : Nat := 0
  lCnt : Nat := 0
  log : List Event := []
  deriving Repr, DecidableEq

/-- Prescribed behaviour of the external collaborators: the result and
duration of the `n`-th `similarity_search`, `generate_content` and
`list_indexes().names()` call.  `.error ()` models the call raising. -/
structure Oracle where
  searchRes : Nat → Except Unit (List Doc)
  searchDur : Nat → ℚ
  genRes : Nat → Except Unit String
  genDur : Nat → ℚ
  listRes : Nat → Except Unit (List String)
  listDur : Nat → ℚ

/-- `self.min_call_interval = 1.0` (chatbot.py line 38). -/
def min_call_interval : ℚ := 1

/-- `self.vector_store.similarity_search(question, k)` : consumes the
next search response, advances the clock by its duration, logs the
call. -/
def doSearch (o : Oracle) (q : String) (k : Nat) (w : World) :
    Except Unit (List Doc) × World :=
  let _ := q
  (o.searchRes w.sCnt,
   { w with now := w.now + o.searchDur w.sCnt, sCnt := w.sCnt + 1,
            log := w.log ++ [.searchEv k w.now] })

/-- `self.client.generate_content(prompt)` : consumes the next
generation response, advances the clock, logs start/end time and
success. -/
def doGen (o : Oracle) (prompt : String) (w : World) :
    Except Unit String × World :=
  let _ := prompt
  let r := o.genRes w.gCnt
  (r, { w with now := w.now + o.genDur w.gCnt, gCnt := w.gCnt + 1,
               log := w.log ++ [.genEv w.now (w.now + o.genDur w.gCnt)
                 (match r with | .ok _ => true | .error _ => false)] })

/-- `self.pc.list_indexes().names()`. -/
def doList (o : Oracle) (w : World) : Except Unit (List String) × World :=
  (o.listRes w.lCnt,
   { w with now := w.now + o.listDur w.lCnt, lCnt := w.lCnt + 1,
            log := w.log ++ [.listEv w.now] })

/-- `time.sleep(d)` : advances the clock by exactly `d`. -/
def doSleep (d : ℚ) (w : World) : World :=
  { w with now := w.now + d, log := w.log ++ [.sleepEv d w.now] }

/-- Lines 89-93 of chatbot.py: the rate limiter at the top of `query`.
Reads the clock, and sleeps for the remaining delta when less than
`min_call_interval` has elapsed since `self.last_call_time`. -/
def rate_limited (st : ChatState) (w : World) : World :=
  let current_time := w.now
  let time_since_last_call := current_time - st.lastCallTime
  if time_since_last_call < min_call_interval then
    doSleep (min_call_interval - time_since_last_call) w
  else w

/-! ### String helpers (`_summarize_content`, `_prepare_context`) -/

/-- Python `str.strip()` on a character list: drop leading and trailing
whitespace. -/
def trimL (cs : List Char) : List Char :=
  ((cs.dropWhile Char.isWhitespace).reverse.dropWhile Char.isWhitespace).reverse

/-- Python `content.split('.')` on character lists: split at every
`'.'`, keeping empty segments (so `"a."` splits into `["a", ""]`). -/
def splitDot : List Char → List (List Char)
  | [] => [[]]
  | c :: cs =>
    if c = '.' then [] :: splitDot cs
    else match splitDot cs with
      | [] => [[c]]
      | s :: ss => (c :: s) :: ss

/-- The accumulation loop of `_summarize_content` (lines 296-301):
take whole sentences while the sentence is non-blank and the running
length stays strictly under `maxLen`; on appending, Python adds
`sentence + '. '`. -/
def accumSentences (maxLen : Nat) : List (List Char) → List Char → List Char
  | [], summary => summary
  | s :: rest, summary =>
    if trimL s ≠ [] ∧ summary.length + s.length < maxLen then
      accumSentences maxLen rest (summary ++ s ++ ['.', ' '])
    else summary

/-- `_summarize_content(content, max_length)` on character lists. -/
def summarizeL (content : List Char) (maxLen : Nat) : List Char :=
  if content.length ≤ maxLen then content
  else
    let summary := trimL (accumSentences maxLen (splitDot content) [])
    if summary.length < content.length then summary ++ ['.', '.'] else summary

/-- `SmartLegalChatbot._summarize_content` (chatbot.py lines 290-307). -/
def summarize_content (content : String) (maxLen : Nat) : String :=
  ⟨summarizeL content.data maxLen⟩

/-- Python `re.sub(r'\s+', ' ', content).strip()` (line 181): collapse
whitespace runs to single spaces and trim. -/
def normWs (s : String) : String :=
  String.intercalate " " ((s.split Char.isWhitespace).filter (fun t => t ≠ ""))

/-- Lines 184-185: truncate cleaned content to 400 characters plus
`"..."`. -/
def truncate400 (s : String) : String :=
  if s.length > 400 then s.take 400 ++ "..." else s

/-- `doc.metadata.get('page', 'N/A')` rendered by `str(...)`. -/
def pageStr : Option Nat → String
  | some n => toString n
  | none => "N/A"

/-! ### Prompt construction and answer formatting -/

/-- `SmartLegalChatbot._prepare_context` (lines 172-190). -/
def prepare_context (docs : List Doc) : String :=
  String.intercalate "\n\n"
    ("**RELEVANT LEGAL DOCUMENTS FROM DATABASE:**\n" ::
      docs.enum.map (fun p =>
        "**Document " ++ toString (p.1 + 1) ++ "** (Page " ++ pageStr p.2.page
          ++ "): " ++ truncate400 (normWs p.2.content)))

/-- `SmartLegalChatbot._create_rag_prompt` (lines 192-206). -/
def create_rag_prompt (question context : String) : String :=
  "You are an expert legal assistant for Indian Constitution and IPC.\n\n**LEGAL DOCUMENTS CONTEXT:**\n"
    ++ context
    ++ "\n\n**USER QUESTION:**\n"
    ++ question
    ++ "\n\n**INSTRUCTIONS:**\nAnswer the question using the legal documents provided above. Provide a comprehensive legal analysis with proper citations.\n\n**ANSWER:**\n"

/-- `SmartLegalChatbot._create_direct_prompt` (lines 208-232). -/
def create_direct_prompt (question : String) : String :=
  "You are an expert legal assistant specializing in Indian Constitution and Indian Penal Code (IPC).\n\n**USER QUESTION:**\n"
    ++ question
    ++ "\n\n**INSTRUCTIONS:**\nProvide a comprehensive, accurate answer about Indian Constitution or IPC.\n\n**ANSWER:**\n"

/-- `sorted(list(set(doc.metadata.get('page', 'N/A') for doc in docs)))`
(line 237).  The set holds ints plus possibly the string `'N/A'`;
Python's `sorted` makes no comparison on a set of at most one element,
sorts ints ascending, and raises `TypeError` on a mixed int/str set of
two or more elements.  `.error ()` models that raise. -/
def uniquePages (docs : List Doc) : Except Unit (List (Option Nat)) :=
  let ps := (docs.map Doc.page).dedup
  if ps.length ≤ 1 then .ok ps
  else if ps.all Option.isSome then
    .ok ((List.insertionSort (· ≤ ·) (ps.filterMap id)).map some)
  else .error ()

/-- The citation footer appended by `_format_rag_answer` (lines
239-244), given the sorted unique pages and the document count. -/
def ragFooter (ps : List (Option Nat)) (n : Nat) : String :=
  "\n\n---\n**📚 Source Information:**\n• **Source:** Pinecone Legal Database\n• **Relevant Pages:** "
    ++ String.intercalate ", " ((ps.take 5).map pageStr)
    ++ "\n• **Documents Analyzed:** " ++ toString n ++ "\n"

/-- `SmartLegalChatbot._format_rag_answer` (lines 234-246); fails when
`sorted` raises on mixed page types. -/
def format_rag_answer (answer : String) (docs : List Doc) : Except Unit String :=
  match uniquePages docs with
  | .error e => .error e
  | .ok ps => .ok (answer ++ ragFooter ps docs.length)

/-- The fixed note appended by `_format_direct_answer` (lines 250-253). -/
def directNote : String :=
  "\n\n---\n**💡 Note:** This answer is generated using general legal knowledge. For specific document references, ensure relevant content is available in the legal database.\n"

/-- `SmartLegalChatbot._format_direct_answer` (lines 248-255); the
`question` argument is unused by the source as well. -/
def format_direct_answer (answer question : String) : String :=
  let _ := question
  answer ++ directNote

/-- The document digest built by `_fallback_approach` when the reduced
search finds documents (lines 263-275). -/
def digestAnswer (question : String) (docs : List Doc) : String :=
  String.intercalate "\n"
    (["**🔍 Legal Document References:**\n"]
      ++ docs.map (fun d =>
           "• **Page " ++ pageStr d.page ++ ":** " ++ summarize_content d.content 150)
      ++ ["\n**Question:** " ++ question,
          "\n*Please review the above document references for relevant information.*"])

/-- Line 280: the static message when the reduced search finds nothing. -/
def noDocsMsg (question : String) : String :=
  "**🤖 Legal Assistant**\n\nI understand you're asking about: \"" ++ question
    ++ "\"\n\nWhile I couldn't find specific documents in the database, this appears to be a question about Indian law. Please ensure your question relates to Indian Constitution or IPC, and try again."

/-- Line 286: the absolute-floor static message. -/
def unavailableMsg : String :=
  "**⚠️ System Temporarily Unavailable**\n\nPlease try again in a moment."

/-- Line 84: the message returned when initialization fails. -/
def initFailedMsg : String :=
  "**❌ System Initialization Failed**\n\nPlease check your setup and try again."

/-! ### The orchestrator -/

/-- `SmartLegalChatbot._has_relevant_documents` (lines 117-124): any
retrieved document counts as relevant; no score threshold. -/
def has_relevant_documents (question : String) (docs : List Doc) : Bool :=
  let _ := question
  if docs.isEmpty then false else true

/-- `VectorStoreManager.check_index_exists` (vector_store.py lines
119-125): `True` iff listing succeeds and contains the index name;
any exception is caught and yields `False`. -/
def check_index_exists (o : Oracle) (env : Env) (w : World) : Bool × World :=
  let l := doList o w
  match l.1 with
  | .ok names => (names.contains env.indexName, l.2)
  | .error _ => (false, l.2)

/-- `VectorStoreManager.get_vector_store` (vector_store.py lines
98-117): re-lists the indexes and raises when listing fails or the
index is absent; the returned handle is modelled by `true`. -/
def get_vector_store (o : Oracle) (env : Env) (w : World) : Bool × World :=
  let l := doList o w
  match l.1 with
  | .ok names => (names.contains env.indexName, l.2)
  | .error _ => (false, l.2)

/-- The distinct failure points of `SmartLegalChatbot.initialize`
(chatbot.py lines 40-76), each corresponding to one raised exception
message of the source. -/
inductive InitErr where
  | indexNotFound
  | storeLoadFailed
  | missingApiKey
  | genTestFailed
  deriving Repr, DecidableEq

/-- `SmartLegalChatbot.initialize` with the caught exception made
explicit: check the index exists, load the vector store, require the
API key, smoke-test the generation client.  The smoke test neither
rate-limits nor updates `last_call_time`. -/
def initChatbotE (o : Oracle) (env : Env) (st : ChatState) (w : World) :
    Except InitErr Unit × ChatState × World :=
  if st.initialized then (.ok (), st, w)
  else
    let c := check_index_exists o env w
    if ¬ c.1 then (.error .indexNotFound, st, c.2)
    else
      let v := get_vector_store o env c.2
      if ¬ v.1 then (.error .storeLoadFailed, st, v.2)
      else match env.apiKey with
        | none => (.error .missingApiKey, st, v.2)
        | some _ =>
          let t := doGen o "Say hello" v.2
          match t.1 with
          | .error _ => (.error .genTestFailed, st, t.2)
          | .ok _ => (.ok (), { st with initialized := true }, t.2)

/-- `SmartLegalChatbot.initialize` as the source returns it: `True` on
success, `False` on any caught exception.  (Named `initChatbot` here
because the source's name is a reserved word in Lean.) -/
def initChatbot (o : Oracle) (env : Env) (st : ChatState) (w : World) :
    Bool × ChatState × World :=
  let r := initChatbotE o env st w
  (match r.1 with | .ok _ => true | .error _ => false, r.2)

/-- `SmartLegalChatbot._fallback_approach` (lines 257-288): re-query
with `k=3`; a digest when documents are found, the static no-documents
message when none are, and the static unavailable message when the
search itself raises (the `except` at line 284). -/
def fallback_approach (o : Oracle) (q : String) (st : ChatState) (w : World) :
    AnswerResult × ChatState × World :=
  let s := doSearch o q 3 w
  match s.1 with
  | .error _ => ({ answer := unavailableMsg, source_documents := [] }, st, s.2)
  | .ok docs =>
    if docs.isEmpty then
      ({ answer := noDocsMsg q, source_documents := [] }, st, s.2)
    else
      ({ answer := digestAnswer q docs, source_documents := docs }, st, s.2)

/-- `SmartLegalChatbot._direct_gemini_approach` (lines 150-170): one
generation call; on success `last_call_time` is set to the clock after
the call and the note-annotated answer is returned with no sources; on
failure control passes to `_fallback_approach`. -/
def direct_gemini_approach (o : Oracle) (q : String) (st : ChatState) (w : World) :
    AnswerResult × ChatState × World :=
  let g := doGen o (create_direct_prompt q) w
  match g.1 with
  | .ok answer =>
    let st1 : ChatState := { st with lastCallTime := g.2.now }
    ({ answer := format_direct_answer answer q, source_documents := [] }, st1, g.2)
  | .error _ => fallback_approach o q st g.2

/-- `SmartLegalChatbot._rag_approach` (lines 126-148): one generation
call on the RAG prompt; on success `last_call_time` is updated and the
answer formatted (which itself can raise on mixed page metadata, still
inside the same `try`); on any failure control passes to
`_direct_gemini_approach`. -/
def rag_approach (o : Oracle) (q : String) (docs : List Doc)
    (st : ChatState) (w : World) : AnswerResult × ChatState × World :=
  let g := doGen o (create_rag_prompt q (prepare_context docs)) w
  match g.1 with
  | .error _ => direct_gemini_approach o q st g.2
  | .ok answer =>
    let st1 : ChatState := { st with lastCallTime := g.2.now }
    match format_rag_answer answer docs with
    | .ok fa => ({ answer := fa, source_documents := docs }, st1, g.2)
    | .error _ => direct_gemini_approach o q st1 g.2

/-- The `try` body of `SmartLegalChatbot.query` (lines 88-115): rate
limit, search with `k=6`, branch on `_has_relevant_documents`; a search
failure is caught by the `except` and handed to `_fallback_approach`. -/
def queryBody (o : Oracle) (q : String) (st : ChatState) (w : World) :
    AnswerResult × ChatState × World :=
  let w1 := rate_limited st w
  let s := doSearch o q 6 w1
  match s.1 with
  | .error _ => fallback_approach o q st s.2
  | .ok docs =>
    if has_relevant_documents q docs then rag_approach o q docs st s.2
    else direct_gemini_approach o q st s.2

/-- `SmartLegalChatbot.query` (lines 78-115): lazily initialize (a
failure is terminal for this call), then run the query body. -/
def query (o : Oracle) (env : Env) (q : String) (st : ChatState) (w : World) :
    AnswerResult × ChatState × World :=
  if st.initialized then queryBody o q st w
  else
    let i := initChatbot o env st w
    if i.1 then queryBody o q i.2.1 i.2.2
    else ({ answer := initFailedMsg, source_documents := [] }, i.2.1, i.2.2)

/-! ### Observations on runs -/

/-- The generation calls of a log: (start, end, succeeded). -/
def genEvents (l : List Event) : List (ℚ × ℚ × Bool) :=
  l.filterMap fun e => match e with
    | .genEv t te ok => some (t, te, ok)
    | _ => none

/-- The end time of a successful generation event, if that is what the
event is. -/
def isOkGen : Event → Option ℚ
  | .genEv _ te true => some te
  | _ => none

/-- The end time of the last successful generation call of a log, if
any. -/
def lastOkGenEnd : List Event → Option ℚ
  | [] => none
  | e :: rest =>
    match lastOkGenEnd rest with
    | some t => some t
    | none => isOkGen e

/-- Numeric order on displayed page identifiers (`'N/A'` compares with
nothing, which only arises for singleton lists). -/
def pageLe : Option Nat → Option Nat → Prop
  | some m, some n => m ≤ n
  | _, _ => True

/-- The kind of an external call, with clock stamps erased: used to
state call-sequence properties. -/
inductive EvKind where
  | searchK (k : Nat)
  | genK (ok : Bool)
  | listK
  | sleepK
  deriving Repr, DecidableEq

/-- The call sequence of a log, with clock stamps erased. -/
def evKinds (l : List Event) : List EvKind :=
  l.map fun e =>
    match e with
    | .searchEv k _ => .searchK k
    | .genEv _ _ ok => .genK ok
    | .listEv _ => .listK
    | .sleepEv _ _ => .sleepK

/-! ### Concrete runs used as counterexamples and witnesses -/

/-- A well-behaved environment. -/
def envGood : Env := ⟨some "key", "indian-constitution-ipc"⟩

/-- A fully healthy oracle: retrieval always finds one page-3 document,
generation always succeeds, listing succeeds, every call instantaneous. -/
def oGood : Oracle :=
  { searchRes := fun _ => .ok [⟨"Article 14 guarantees equality.", some 3⟩]
    searchDur := fun _ => 0
    genRes := fun _ => .ok "ANS"
    genDur := fun _ => 0
    listRes := fun _ => .ok ["indian-constitution-ipc"]
    listDur := fun _ => 0 }

/-- Retrieval finds a document, the first generation call fails and the
second succeeds: exercises the RAG-failure → direct retry. -/
def oRagFail : Oracle :=
  { oGood with genRes := fun n => if n = 0 then .error () else .ok "ANS" }

/-- Every generation call fails; the first search succeeds and every
later one raises: drives a run into the terminal `except`. -/
def oAllGenFail : Oracle :=
  { oGood with
      genRes := fun _ => .error ()
      searchRes := fun n => if n = 0 then .ok [⟨"c", some 3⟩] else .error () }

/-- Every retrieval call raises. -/
def oSearchFail : Oracle := { oGood with searchRes := fun _ => .error () }

/-- Retrieval yields one document with a page number and one whose
metadata lacks the page key; generation succeeds. -/
def oMixedPages : Oracle :=
  { oGood with searchRes := fun _ => .ok [⟨"a", some 3⟩, ⟨"b", none⟩] }

/-- Listing the indexes raises. -/
def oListFail : Oracle := { oGood with listRes := fun _ => .error () }

/-- Listing succeeds but the index is absent. -/
def oListMissing : Oracle := { oGood with listRes := fun _ => .ok ["other-index"] }

/-- An already-initialized orchestrator state with last-call timestamp 0. -/
def stInit : ChatState := ⟨true, 0⟩

/-- A fresh, never-initialized orchestrator state. -/
def stFresh : ChatState := ⟨false, 0⟩

/-- A fresh world at clock 5 (more than the minimum interval after
`stInit.lastCallTime`). -/
def w5 : World := { now := 5 }

/-! ### Stage characterization lemmas -/

/-- `_fallback_approach`, solved: the answer depends only on the next
search response; the chat state is untouched. -/
theorem fallback_spec (o : Oracle) (q : String) (st : ChatState) (w : World) :
    fallback_approach o q st w =
      ((match o.searchRes w.sCnt with
        | .error _ => { answer := unavailableMsg, source_documents := [] }
        | .ok docs =>
          if docs.isEmpty then { answer := noDocsMsg q, source_documents := [] }
          else { answer := digestAnswer q docs, source_documents := docs }),
       st, (doSearch o q 3 w).2) := by
  unfold fallback_approach
  cases h : o.searchRes w.sCnt with
  | error e => simp [doSearch, h]
  | ok docs =>
    simp only [doSearch, h]
    by_cases hd : docs.isEmpty <;> simp [hd]

/-- `_direct_gemini_approach`, solved in terms of the next generation
response. -/
theorem direct_spec (o : Oracle) (q : String) (st : ChatState) (w : World) :
    direct_gemini_approach o q st w =
      match o.genRes w.gCnt with
      | .ok a =>
        ({ answer := format_direct_answer a q, source_documents := [] },
         { st with lastCallTime := (doGen o (create_direct_prompt q) w).2.now },
         (doGen o (create_direct_prompt q) w).2)
      | .error _ => fallback_approach o q st (doGen o (create_direct_prompt q) w).2 := by
  unfold direct_gemini_approach
  cases h : o.genRes w.gCnt <;> simp [doGen, h]

/-- `_rag_approach`, solved in terms of the next generation response
and the formatting outcome. -/
theorem rag_spec (o : Oracle) (q : String) (docs : List Doc)
    (st : ChatState) (w : World) :
    rag_approach o q docs st w =
      (let g2 := (doGen o (create_rag_prompt q (prepare_context docs)) w).2
       match o.genRes w.gCnt with
       | .error _ => direct_gemini_approach o q st g2
       | .ok a =>
         match format_rag_answer a docs with
         | .ok fa =>
           ({ answer := fa, source_documents := docs },
            { st with lastCallTime := g2.now }, g2)
         | .error _ =>
           direct_gemini_approach o q { st with lastCallTime := g2.now } g2) := by
  unfold rag_approach
  cases h : o.genRes w.gCnt with
  | error e => simp [doGen, h]
  | ok a =>
    simp only [doGen, h]

/-- The rate limiter does not consume collaborator calls. -/
theorem rate_limited_sCnt (st : ChatState) (w : World) :
    (rate_limited st w).sCnt = w.sCnt := by
  simp only [rate_limited, doSleep]; split <;> rfl

/-- The rate limiter does not consume generation calls. -/
theorem rate_limited_gCnt (st : ChatState) (w : World) :
    (rate_limited st w).gCnt = w.gCnt := by
  simp only [rate_limited, doSleep]; split <;> rfl

/-- After the rate-limit block, at least the minimum interval has
elapsed since `last_call_time`: either enough time had already passed,
or the sleep tops the clock up to exactly `lastCallTime + 1`. -/
theorem rate_limited_now_ge (st : ChatState) (w : World) :
    st.lastCallTime + min_call_interval ≤ (rate_limited st w).now := by
  simp only [rate_limited, doSleep]
  split
  · simp only []
    linarith
  · linarith [not_lt.mp (by assumption : ¬ w.now - st.lastCallTime < min_call_interval)]

theorem stInit_initialized : stInit.initialized = true := rfl

/-- C3 (amended): the terminal fallback returns the document digest
when the reduced `k=3` search finds documents, the static no-documents
message when it returns zero documents, and — contrary to the original
claim — the static "system temporarily unavailable" message when the
reduced search call itself raises, since that raise is an exception at
the terminal stage caught by its `except` (chatbot.py line 284). -/
theorem C3_terminal_fallback_messages (o : Oracle) (q : String)
    (st : ChatState) (w : World) :
    (fallback_approach o q st w).1 =
      match o.searchRes w.sCnt with
      | .error _ => { answer := unavailableMsg, source_documents := [] }
      | .ok docs =>
        if docs.isEmpty then { answer := noDocsMsg q, source_documents := [] }
        else { answer := digestAnswer q docs, source_documents := docs } := by
  rw [fallback_spec]

/-- C3 counterexample: a run in which the terminal fallback's reduced
`k=3` retrieval itself raises.  The original claim demands the static
"no documents found" message; the code returns the static "system
temporarily unavailable" message instead. -/
theorem C3_counterexample_retrieval_failure_message :
    (query oSearchFail envGood "q" stInit w5).1 =
      { answer := unavailableMsg, source_documents := [] } ∧
    unavailableMsg ≠ noDocsMsg "q" := by
  constructor
  · norm_num [query, queryBody, stInit, w5, rate_limited, min_call_interval,
      doSleep, doSearch, oSearchFail, oGood, fallback_approach]
  · decide

/-- C7: the RAG path is taken iff the `k=6` retrieval returns at least
one document — `_has_relevant_documents` tests emptiness only, no
score threshold exists anywhere — and `query` dispatches on exactly
that test: zero documents go to the direct path. -/
theorem C7_rag_iff_documents_found (o : Oracle) (env : Env) (q : String)
    (st : ChatState) (w : World) (hst : st.initialized = true)
    (docs : List Doc) (hs : o.searchRes w.sCnt = .ok docs) :
    (has_relevant_documents q docs = true ↔ docs ≠ []) ∧
    query o env q st w =
      (if docs.isEmpty
       then direct_gemini_approach o q st (doSearch o q 6 (rate_limited st w)).2
       else rag_approach o q docs st (doSearch o q 6 (rate_limited st w)).2) := by
  constructor
  · cases docs <;> simp [has_relevant_documents]
  · have hcnt : (rate_limited st w).sCnt = w.sCnt := rate_limited_sCnt st w
    simp only [query, hst, if_true, queryBody, doSearch, hcnt, hs]
    cases docs <;> simp [has_relevant_documents]

/-- C7 witness: a healthy run with one retrieved document takes the
RAG branch. -/
theorem C7_rag_iff_documents_found_witness :
    (has_relevant_documents "q" [⟨"Article 14 guarantees equality.", some 3⟩] = true ↔
      [(⟨"Article 14 guarantees equality.", some 3⟩ : Doc)] ≠ []) ∧
    query oGood envGood "q" stInit w5 =
      (if [(⟨"Article 14 guarantees equality.", some 3⟩ : Doc)].isEmpty
       then direct_gemini_approach oGood "q" stInit
         (doSearch oGood "q" 6 (rate_limited stInit w5)).2
       else rag_approach oGood "q" [⟨"Article 14 guarantees equality.", some 3⟩] stInit
         (doSearch oGood "q" 6 (rate_limited stInit w5)).2) :=
  C7_rag_iff_documents_found oGood envGood "q" stInit w5 rfl _ rfl

/-- C10: an infrastructure failure of the index-listing call makes
`check_index_exists` return `False` (the `except` at vector_store.py
line 123) exactly as a genuinely missing index does, so `initialize`
fails with the same "Pinecone index not found" configuration error
(chatbot.py line 50) in both situations and reports `False`. -/
theorem C10_listing_failure_reported_as_missing_index
    (o o2 : Oracle) (env : Env) (st : ChatState) (w : World)
    (hst : st.initialized = false)
    (hfail : o.listRes w.lCnt = .error ())
    (names : List String) (hok : o2.listRes w.lCnt = .ok names)
    (hmiss : names.contains env.indexName = false) :
    (check_index_exists o env w).1 = false ∧
    (check_index_exists o2 env w).1 = false ∧
    (initChatbotE o env st w).1 = .error .indexNotFound ∧
    (initChatbotE o2 env st w).1 = .error .indexNotFound ∧
    (initChatbot o env st w).1 = false ∧
    (initChatbot o2 env st w).1 = false := by
  have hmem : env.indexName ∉ names := by simpa using hmiss
  refine ⟨?_, ?_, ?_, ?_, ?_, ?_⟩ <;>
    simp [check_index_exists, doList, hfail, hok, hmem, initChatbotE,
      initChatbot, hst]

/-- C10 witness: with a raising listing call and with a listing lacking
the configured index name, initialization fails identically. -/
theorem C10_listing_failure_reported_as_missing_index_witness :
    (check_index_exists oListFail envGood w5).1 = false ∧
    (check_index_exists oListMissing envGood w5).1 = false ∧
    (initChatbotE oListFail envGood stFresh w5).1 = .error .indexNotFound ∧
    (initChatbotE oListMissing envGood stFresh w5).1 = .error .indexNotFound ∧
    (initChatbot oListFail envGood stFresh w5).1 = false ∧
    (initChatbot oListMissing envGood stFresh w5).1 = false :=
  C10_listing_failure_reported_as_missing_index oListFail oListMissing envGood
    stFresh w5 rfl rfl ["other-index"] rfl rfl

/-! ### Summarizer bounds (C5) -/

theorem length_dropWhile_le (p : Char → Bool) (l : List Char) :
    (l.dropWhile p).length ≤ l.length :=
  (List.dropWhile_sublist p).length_le

/-- Stripping never lengthens a string. -/
theorem trimL_length_le (cs : List Char) : (trimL cs).length ≤ cs.length := by
  unfold trimL
  have h1 : (cs.dropWhile Char.isWhitespace).length ≤ cs.length :=
    length_dropWhile_le _ _
  have h2 := length_dropWhile_le Char.isWhitespace
    (cs.dropWhile Char.isWhitespace).reverse
  simp only [List.length_reverse] at *
  omega

/-- Stripping a summary that ends in `". "` removes at least the
trailing blank: the result is no longer than the material before the
final space. -/
theorem trimL_append_length (pre : List Char) :
    (trimL (pre ++ ['.', ' '])).length ≤ pre.length + 1 := by
  unfold trimL
  rw [List.dropWhile_append]
  split
  · have hx : ((((['.', ' '] : List Char).dropWhile
        Char.isWhitespace).reverse).dropWhile Char.isWhitespace).reverse = ['.'] := by
      decide
    rw [hx]
    simp
  · rw [List.reverse_append]
    have e1 : (['.', ' '] : List Char).reverse = [' ', '.'] := by decide
    rw [e1]
    simp only [List.cons_append, List.nil_append]
    rw [List.dropWhile_cons_of_pos (by decide : (' ').isWhitespace = true),
      List.dropWhile_cons_of_neg (by simp : ¬ ('.').isWhitespace = true)]
    have := length_dropWhile_le Char.isWhitespace pre
    simp only [List.length_reverse, List.length_cons]
    omega

/-- Invariant of the sentence-accumulation loop: the summary is empty
or ends in `". "` and — because Python checks
`len(summary + sentence) < max_length` before appending
`sentence + '. '` — has length at most `maxLen + 1`. -/
theorem accumSentences_shape (maxLen : Nat) (ss : List (List Char)) :
    ∀ summary,
      (summary = [] ∨
        ∃ pre, summary = pre ++ ['.', ' '] ∧ summary.length ≤ maxLen + 1) →
      (accumSentences maxLen ss summary = [] ∨
        ∃ pre, accumSentences maxLen ss summary = pre ++ ['.', ' '] ∧
          (accumSentences maxLen ss summary).length ≤ maxLen + 1) := by
  induction ss with
  | nil => intro s h; exact h
  | cons s rest ih =>
    intro summary h
    rw [accumSentences]
    split
    · rename_i hcond
      apply ih
      right
      refine ⟨summary ++ s, by rw [List.append_assoc], ?_⟩
      simp only [List.length_append, List.length_cons, List.length_nil]
      omega
    · exact h

/-- The digest summary never exceeds the cap by more than the trailing
`". "` bookkeeping plus the two-character ellipsis marker. -/
theorem summarizeL_length_le (content : List Char) (maxLen : Nat) :
    (summarizeL content maxLen).length ≤ maxLen + 2 := by
  rw [summarizeL]
  split
  · rename_i hle; omega
  · have hsh := accumSentences_shape maxLen (splitDot content) [] (Or.inl rfl)
    have htrim : (trimL (accumSentences maxLen (splitDot content) [])).length ≤ maxLen := by
      rcases hsh with h0 | ⟨pre, hpre, hlen⟩
      · rw [h0]
        simp [trimL]
      · rw [hpre]
        have h1 := trimL_append_length pre
        rw [hpre] at hlen
        simp only [List.length_append, List.length_cons, List.length_nil] at hlen
        omega
    dsimp only
    split
    · simp only [List.length_append, List.length_cons, List.length_nil]
      omega
    · omega

/-- C5 (amended): `_summarize_content` accumulates whole '.'-delimited
sentences while the running length stays under the cap and appends a
".." marker when truncated, but its result can exceed the cap by up to
2 characters (the accumulated text may reach the cap exactly once the
trailing blank is stripped, and the marker adds two more); the bound
`cap + 2` always holds, and for content "A. B. C. D." with cap 5 the
result is "A..." — one full sentence plus the marker, no mid-word
cut. -/
theorem C5_summary_bounded :
    (∀ (content : String) (maxLen : Nat),
       (summarize_content content maxLen).length ≤ maxLen + 2) ∧
    summarize_content "A. B. C. D." 5 = "A..." := by
  constructor
  · intro content maxLen
    show (summarizeL content.data maxLen).length ≤ maxLen + 2
    exact summarizeL_length_le content.data maxLen
  · decide

/-- C5 counterexample: for content "ABCD. XY." and cap 5 the code
returns "ABCD..." of length 7, exceeding the claimed cap of 5 (the
accumulated sentence reaches the cap after stripping, then the two-dot
marker is appended). -/
theorem C5_counterexample_cap_exceeded :
    summarize_content "ABCD. XY." 5 = "ABCD..." ∧
    ¬ ((summarize_content "ABCD. XY." 5).length ≤ 5) := by
  constructor <;> decide

/-! ### Run observations: projections and log structure -/

theorem doSearch_sCnt (o : Oracle) (q : String) (k : Nat) (w : World) :
    (doSearch o q k w).2.sCnt = w.sCnt + 1 := rfl

theorem doSearch_gCnt (o : Oracle) (q : String) (k : Nat) (w : World) :
    (doSearch o q k w).2.gCnt = w.gCnt := rfl

theorem doSearch_now (o : Oracle) (q : String) (k : Nat) (w : World) :
    (doSearch o q k w).2.now = w.now + o.searchDur w.sCnt := rfl

theorem doSearch_log (o : Oracle) (q : String) (k : Nat) (w : World) :
    (doSearch o q k w).2.log = w.log ++ [.searchEv k w.now] := rfl

theorem doGen_sCnt (o : Oracle) (p : String) (w : World) :
    (doGen o p w).2.sCnt = w.sCnt := rfl

theorem doGen_gCnt (o : Oracle) (p : String) (w : World) :
    (doGen o p w).2.gCnt = w.gCnt + 1 := rfl

theorem doGen_now (o : Oracle) (p : String) (w : World) :
    (doGen o p w).2.now = w.now + o.genDur w.gCnt := rfl

theorem doGen_log (o : Oracle) (p : String) (w : World) :
    (doGen o p w).2.log = w.log ++
      [.genEv w.now (w.now + o.genDur w.gCnt)
        (match o.genRes w.gCnt with | .ok _ => true | .error _ => false)] := rfl

theorem genEvents_append (a b : List Event) :
    genEvents (a ++ b) = genEvents a ++ genEvents b := by
  simp [genEvents, List.filterMap_append]

theorem genEvents_searchEv (k : Nat) (t : ℚ) :
    genEvents [.searchEv k t] = [] := rfl

theorem lastOkGenEnd_append (a b : List Event) :
    lastOkGenEnd (a ++ b) =
      match lastOkGenEnd b with
      | some t => some t
      | none => lastOkGenEnd a := by
  induction a with
  | nil =>
    show lastOkGenEnd b = _
    cases lastOkGenEnd b <;> rfl
  | cons e a ih =>
    simp only [List.cons_append, lastOkGenEnd]
    have ih2 : lastOkGenEnd (a.append b) =
        (match lastOkGenEnd b with
         | some t => some t
         | none => lastOkGenEnd a) := ih
    rw [ih2]
    cases lastOkGenEnd b <;> cases lastOkGenEnd a <;> rfl

/-- The rate limiter logs at most a sleep event: no generation events. -/
theorem rate_limited_genEvents (st : ChatState) (w : World) :
    genEvents (rate_limited st w).log = genEvents w.log := by
  simp only [rate_limited, doSleep]
  split
  · show genEvents (w.log ++ [.sleepEv _ _]) = _
    rw [genEvents_append]; simp [genEvents]
  · rfl

theorem rate_limited_lastOkGenEnd (st : ChatState) (w : World) :
    lastOkGenEnd (rate_limited st w).log = lastOkGenEnd w.log := by
  simp only [rate_limited, doSleep]
  split
  · show lastOkGenEnd (w.log ++ [.sleepEv _ _]) = _
    rw [lastOkGenEnd_append]; rfl
  · rfl

/-- The terminal fallback leaves the chat state untouched and appends
exactly one `k=3` search event. -/
theorem fallback_effects (o : Oracle) (q : String) (st : ChatState) (w : World) :
    (fallback_approach o q st w).2.1 = st ∧
    (fallback_approach o q st w).2.2.log = w.log ++ [.searchEv 3 w.now] := by
  rw [fallback_spec]
  exact ⟨rfl, rfl⟩

/-- Trace of the direct path: it appends one generation event starting
at the current clock (plus at most a terminal search event), and the
final `last_call_time` is the end of its generation call when that call
succeeded, the inherited value otherwise. -/
theorem direct_trace (o : Oracle) (q : String) (st : ChatState) (w : World) :
    ∃ te ok tail,
      (direct_gemini_approach o q st w).2.2.log =
        w.log ++ Event.genEv w.now te ok :: tail ∧
      genEvents tail = [] ∧
      (direct_gemini_approach o q st w).2.1.lastCallTime =
        (lastOkGenEnd (Event.genEv w.now te ok :: tail)).getD st.lastCallTime := by
  rw [direct_spec]
  cases hg : o.genRes w.gCnt with
  | ok a =>
    refine ⟨w.now + o.genDur w.gCnt, true, [], ?_, rfl, ?_⟩
    · show (doGen o (create_direct_prompt q) w).2.log = _
      rw [doGen_log, hg]
    · show (doGen o (create_direct_prompt q) w).2.now = _
      rw [doGen_now]
      rfl
  | error e =>
    obtain ⟨hst, hlog⟩ := fallback_effects o q st (doGen o (create_direct_prompt q) w).2
    refine ⟨w.now + o.genDur w.gCnt, false, [.searchEv 3 (doGen o (create_direct_prompt q) w).2.now], ?_, rfl, ?_⟩
    · rw [hlog, doGen_log, hg]
      simp
    · rw [hst]
      rfl

theorem lastOkGenEnd_prefix_none (pre x : List Event)
    (h : lastOkGenEnd pre = none) :
    lastOkGenEnd (pre ++ x) = lastOkGenEnd x := by
  rw [lastOkGenEnd_append, h]
  cases lastOkGenEnd x <;> rfl

/-- The rate limiter appends at most one sleep event. -/
theorem rate_limited_log (st : ChatState) (w : World) :
    ∃ pre, (rate_limited st w).log = w.log ++ pre ∧ genEvents pre = [] ∧
      lastOkGenEnd pre = none := by
  simp only [rate_limited, doSleep]
  split
  · exact ⟨[.sleepEv (min_call_interval - (w.now - st.lastCallTime)) w.now],
      rfl, rfl, rfl⟩
  · exact ⟨[], by simp, rfl, rfl⟩

/-- Trace of the RAG path: it appends one generation event starting at
the current clock, followed by whatever the direct retry appends, and
the final `last_call_time` is the end of the last successful
generation call, the inherited value when none succeeded. -/
theorem rag_trace (o : Oracle) (q : String) (docs : List Doc)
    (st : ChatState) (w : World) :
    ∃ te ok tail,
      (rag_approach o q docs st w).2.2.log =
        w.log ++ Event.genEv w.now te ok :: tail ∧
      (rag_approach o q docs st w).2.1.lastCallTime =
        (lastOkGenEnd (Event.genEv w.now te ok :: tail)).getD st.lastCallTime := by
  rw [rag_spec]
  dsimp only
  cases hg : o.genRes w.gCnt with
  | error e =>
    obtain ⟨te2, ok2, tail2, hlog2, -, hlast2⟩ :=
      direct_trace o q st (doGen o (create_rag_prompt q (prepare_context docs)) w).2
    refine ⟨w.now + o.genDur w.gCnt, false,
      Event.genEv (doGen o (create_rag_prompt q (prepare_context docs)) w).2.now te2 ok2 :: tail2,
      ?_, ?_⟩
    · rw [hlog2, doGen_log, hg]
      simp
    · rw [hlast2]
      show _ = (match lastOkGenEnd (Event.genEv _ te2 ok2 :: tail2) with
                | some t => some t
                | none => (none : Option ℚ)).getD st.lastCallTime
      cases lastOkGenEnd (Event.genEv (doGen o (create_rag_prompt q (prepare_context docs)) w).2.now te2 ok2 :: tail2) <;> rfl
  | ok a =>
    cases hf : format_rag_answer a docs with
    | ok fa =>
      refine ⟨w.now + o.genDur w.gCnt, true, [], ?_, ?_⟩
      · simp only [hf, doGen_log, hg]
      · simp only [hf, doGen_now]
        rfl
    | error e =>
      obtain ⟨te2, ok2, tail2, hlog2, -, hlast2⟩ :=
        direct_trace o q { st with lastCallTime := (doGen o (create_rag_prompt q (prepare_context docs)) w).2.now }
          (doGen o (create_rag_prompt q (prepare_context docs)) w).2
      refine ⟨w.now + o.genDur w.gCnt, true,
        Event.genEv (doGen o (create_rag_prompt q (prepare_context docs)) w).2.now te2 ok2 :: tail2,
        ?_, ?_⟩
      · simp only [hf]
        rw [hlog2, doGen_log, hg]
        simp
      · simp only [hf]
        rw [hlast2]
        show _ = (match lastOkGenEnd (Event.genEv _ te2 ok2 :: tail2) with
                  | some t => some t
                  | none => some (w.now + o.genDur w.gCnt)).getD st.lastCallTime
        have hnow : (doGen o (create_rag_prompt q (prepare_context docs)) w).2.now =
            w.now + o.genDur w.gCnt := doGen_now o _ w
        simp only [hnow]
        cases lastOkGenEnd (Event.genEv (w.now + o.genDur w.gCnt) te2 ok2 :: tail2) <;> rfl

/-- With an initialized orchestrator, `query` runs the query body and
dispatches on the `k=6` search result alone. -/
theorem query_dispatch (o : Oracle) (env : Env) (q : String)
    (st : ChatState) (w : World) (hst : st.initialized = true)
    (docs : List Doc) (hs : o.searchRes w.sCnt = .ok docs) :
    query o env q st w =
      if docs.isEmpty
      then direct_gemini_approach o q st (doSearch o q 6 (rate_limited st w)).2
      else rag_approach o q docs st (doSearch o q 6 (rate_limited st w)).2 := by
  have hcnt : (rate_limited st w).sCnt = w.sCnt := rate_limited_sCnt st w
  simp only [query, hst, if_true, queryBody, doSearch, hcnt, hs]
  cases docs <;> simp [has_relevant_documents]

/-- With an initialized orchestrator, a raising `k=6` search sends
`query` directly to the terminal fallback. -/
theorem query_dispatch_err (o : Oracle) (env : Env) (q : String)
    (st : ChatState) (w : World) (hst : st.initialized = true)
    (hs : o.searchRes w.sCnt = .error ()) :
    query o env q st w =
      fallback_approach o q st (doSearch o q 6 (rate_limited st w)).2 := by
  have hcnt : (rate_limited st w).sCnt = w.sCnt := rate_limited_sCnt st w
  simp only [query, hst, if_true, queryBody, doSearch, hcnt, hs]

theorem lastOkGenEnd_cons_none (e : Event) (l : List Event)
    (he : isOkGen e = none) : lastOkGenEnd (e :: l) = lastOkGenEnd l := by
  show (match lastOkGenEnd l with | some t => some t | none => isOkGen e) = _
  rw [he]
  cases lastOkGenEnd l <;> rfl

/-- The query body, solved: dispatch on the `k=6` search result. -/
theorem queryBody_spec (o : Oracle) (q : String) (st : ChatState) (w : World) :
    queryBody o q st w =
      match o.searchRes w.sCnt with
      | .error _ => fallback_approach o q st (doSearch o q 6 (rate_limited st w)).2
      | .ok docs =>
        if docs.isEmpty
        then direct_gemini_approach o q st (doSearch o q 6 (rate_limited st w)).2
        else rag_approach o q docs st (doSearch o q 6 (rate_limited st w)).2 := by
  have hcnt : (rate_limited st w).sCnt = w.sCnt := rate_limited_sCnt st w
  simp only [queryBody, doSearch, hcnt]
  cases hs : o.searchRes w.sCnt with
  | error e => rfl
  | ok docs => cases docs <;> simp [has_relevant_documents]

/-- Trace of the query body: everything it appends to the log, and the
final `last_call_time` as a function of the appended events. -/
theorem queryBody_trace (o : Oracle) (q : String) (st : ChatState) (w : World) :
    ∃ tail, (queryBody o q st w).2.2.log = w.log ++ tail ∧
      (queryBody o q st w).2.1.lastCallTime =
        (lastOkGenEnd tail).getD st.lastCallTime := by
  obtain ⟨pre, hpre, -, hpreOk⟩ := rate_limited_log st w
  rw [queryBody_spec]
  set w2 := (doSearch o q 6 (rate_limited st w)).2 with hw2
  have hw2log : w2.log = (w.log ++ pre) ++ [.searchEv 6 (rate_limited st w).now] := by
    rw [hw2, doSearch_log, hpre]
  cases hs : o.searchRes w.sCnt with
  | error e =>
    obtain ⟨hfst, hflog⟩ := fallback_effects o q st w2
    refine ⟨pre ++ [.searchEv 6 (rate_limited st w).now, .searchEv 3 w2.now], ?_, ?_⟩
    · rw [hflog, hw2log]
      simp
    · rw [hfst, lastOkGenEnd_prefix_none pre _ hpreOk]
      rfl
  | ok docs =>
    by_cases hne : docs.isEmpty
    · simp only [hne, if_true]
      obtain ⟨te, ok, tail2, hlog2, -, hlast2⟩ := direct_trace o q st w2
      refine ⟨pre ++ .searchEv 6 (rate_limited st w).now ::
        Event.genEv w2.now te ok :: tail2, ?_, ?_⟩
      · rw [hlog2, hw2log]
        simp
      · rw [hlast2, lastOkGenEnd_prefix_none pre _ hpreOk,
          lastOkGenEnd_cons_none (.searchEv 6 (rate_limited st w).now) _ rfl]
    · simp only [hne, if_false, Bool.false_eq_true]
      obtain ⟨te, ok, tail2, hlog2, hlast2⟩ := rag_trace o q docs st w2
      refine ⟨pre ++ .searchEv 6 (rate_limited st w).now ::
        Event.genEv w2.now te ok :: tail2, ?_, ?_⟩
      · rw [hlog2, hw2log]
        simp
      · rw [hlast2, lastOkGenEnd_prefix_none pre _ hpreOk,
          lastOkGenEnd_cons_none (.searchEv 6 (rate_limited st w).now) _ rfl]

/-- C4 (amended): `last_call_time` is assigned only after a generation
call that returns normally (the assignments at chatbot.py lines 133 and
156 execute after `generate_content` comes back; a raise skips them).
Hence after `query` on an initialized orchestrator the field equals the
completion time of the last successful generation call of the run, and
keeps its prior value when no generation call succeeded — it is not
updated "regardless of outcome" as claimed. -/
theorem C4_timestamp_tracks_last_successful_call (o : Oracle) (env : Env)
    (q : String) (st : ChatState) (w : World)
    (hst : st.initialized = true) (hl : w.log = []) :
    ((query o env q st w).2.1).lastCallTime =
      (lastOkGenEnd ((query o env q st w).2.2.log)).getD st.lastCallTime := by
  obtain ⟨tail, hlog, hlast⟩ := queryBody_trace o q st w
  simp only [query, hst, if_true]
  rw [hlast, hlog, hl, List.nil_append]

/-- C4 witness: a healthy run; the timestamp equals the end of its one
successful generation call. -/
theorem C4_timestamp_tracks_last_successful_call_witness :
    ((query oGood envGood "q" stInit w5).2.1).lastCallTime =
      (lastOkGenEnd ((query oGood envGood "q" stInit w5).2.2.log)).getD
        stInit.lastCallTime :=
  C4_timestamp_tracks_last_successful_call oGood envGood "q" stInit w5 rfl rfl

/-- C4 counterexample: a run whose two generation calls (RAG, then the
direct retry) both fail at clock 5.  The claim requires the timestamp
to be updated to the current time after every generation call
regardless of outcome; the code leaves it at its initial value 0. -/
theorem C4_counterexample_timestamp_not_updated_on_failure :
    genEvents ((query oAllGenFail envGood "q" stInit w5).2.2.log) =
      [(5, 5, false), (5, 5, false)] ∧
    (query oAllGenFail envGood "q" stInit w5).2.1.lastCallTime = 0 ∧
    (0 : ℚ) ≠ 5 := by
  refine ⟨?_, ?_, by norm_num⟩ <;>
    norm_num [query, queryBody, stInit, w5, rate_limited, min_call_interval,
      doSleep, doSearch, doGen, oAllGenFail, oGood, rag_approach,
      direct_gemini_approach, fallback_approach, has_relevant_documents,
      genEvents, List.filterMap_cons, List.filterMap_nil]

/-- C2 (amended): the elapsed-time check against `last_call_time` runs
once per `query` invocation, at entry before the retrieval call — not
before every Generation Gateway invocation: when less than the minimum
interval of 1.0 has elapsed, the caller sleeps for the remainder, so
the first generation call of the query body starts at least
`min_call_interval` after `last_call_time`.  No check guards the
initialization smoke-test call or the direct retry issued after a RAG
generation failure, so two generation calls inside one query need not
be separated (see the counterexample). -/
theorem C2_first_generation_call_spacing (o : Oracle) (env : Env) (q : String)
    (st : ChatState) (w : World) (hst : st.initialized = true) (hl : w.log = [])
    (hd : 0 ≤ o.searchDur w.sCnt) :
    match (genEvents ((query o env q st w).2.2.log)).head? with
    | some e => st.lastCallTime + min_call_interval ≤ e.1
    | none => True := by
  obtain ⟨pre, hpre, hpreGen, -⟩ := rate_limited_log st w
  simp only [query, hst, if_true]
  rw [queryBody_spec]
  set w2 := (doSearch o q 6 (rate_limited st w)).2 with hw2
  have hw2log : w2.log = (w.log ++ pre) ++ [.searchEv 6 (rate_limited st w).now] := by
    rw [hw2, doSearch_log, hpre]
  have hw2now : w2.now = (rate_limited st w).now + o.searchDur w.sCnt := by
    rw [hw2, doSearch_now, rate_limited_sCnt]
  have hge : st.lastCallTime + min_call_interval ≤ w2.now := by
    have h1 := rate_limited_now_ge st w
    rw [hw2now]
    linarith
  have hpregen2 : genEvents w2.log = [] := by
    rw [hw2log, hl, List.nil_append, genEvents_append, hpreGen]
    rfl
  cases hs : o.searchRes w.sCnt with
  | error e =>
    obtain ⟨-, hflog⟩ := fallback_effects o q st w2
    rw [hflog, genEvents_append, hpregen2]
    exact trivial
  | ok docs =>
    by_cases hne : docs.isEmpty
    · simp only [hne, if_true]
      obtain ⟨te, ok, tail2, hlog2, -, -⟩ := direct_trace o q st w2
      rw [hlog2, genEvents_append, hpregen2, List.nil_append]
      have hcons : genEvents (Event.genEv w2.now te ok :: tail2) =
          (w2.now, te, ok) :: genEvents tail2 := rfl
      rw [hcons]
      exact hge
    · simp only [hne, if_false, Bool.false_eq_true]
      obtain ⟨te, ok, tail2, hlog2, -⟩ := rag_trace o q docs st w2
      rw [hlog2, genEvents_append, hpregen2, List.nil_append]
      have hcons : genEvents (Event.genEv w2.now te ok :: tail2) =
          (w2.now, te, ok) :: genEvents tail2 := rfl
      rw [hcons]
      exact hge

/-- C2 witness: in a healthy run starting more than the minimum
interval after the recorded timestamp, the first generation call
respects the spacing bound. -/
theorem C2_first_generation_call_spacing_witness :
    match (genEvents ((query oGood envGood "q" stInit w5).2.2.log)).head? with
    | some e => stInit.lastCallTime + min_call_interval ≤ e.1
    | none => True :=
  C2_first_generation_call_spacing oGood envGood "q" stInit w5 rfl rfl (le_refl 0)

/-- C2 counterexample: retrieval succeeds, the RAG generation call
fails at clock 5, and the direct retry is issued immediately — also at
clock 5 and with no elapsed-time check before it.  Two consecutive
generation calls are separated by 0 < 1.0, refuting the claim that the
check precedes every Generation Gateway invocation and that any two
consecutive generation calls are at least the minimum interval
apart. -/
theorem C2_counterexample_backtoback_generation :
    genEvents ((query oRagFail envGood "q" stInit w5).2.2.log) =
      [(5, 5, false), (5, 5, true)] ∧
    ¬ ((5 : ℚ) + min_call_interval ≤ 5) := by
  constructor
  · norm_num [query, queryBody, stInit, w5, rate_limited, min_call_interval,
      doSleep, doSearch, doGen, oRagFail, oGood, rag_approach,
      direct_gemini_approach, fallback_approach, has_relevant_documents,
      genEvents, List.filterMap_cons, List.filterMap_nil]
  · norm_num [min_call_interval]

theorem evKinds_append (a b : List Event) :
    evKinds (a ++ b) = evKinds a ++ evKinds b := by
  simp [evKinds]

/-- C6: whenever the RAG path's generation call fails, the next
external call is exactly one direct-path generation call — before any
digest or static fallback activity; the terminal fallback's reduced
`k=3` retrieval is reached only when that direct call also fails. -/
theorem C6_rag_failure_retries_direct_before_fallback
    (o : Oracle) (env : Env) (q : String) (st : ChatState) (w : World)
    (hst : st.initialized = true) (docs : List Doc)
    (hs : o.searchRes w.sCnt = .ok docs) (hne : docs ≠ [])
    (hg : o.genRes w.gCnt = .error ()) :
    evKinds ((query o env q st w).2.2.log) =
      evKinds (rate_limited st w).log ++ [.searchK 6, .genK false] ++
      (match o.genRes (w.gCnt + 1) with
       | .ok _ => [EvKind.genK true]
       | .error _ => [EvKind.genK false, EvKind.searchK 3]) := by
  rw [query_dispatch o env q st w hst docs hs]
  have hde : docs.isEmpty = false := by
    cases docs with
    | nil => exact absurd rfl hne
    | cons d ds => rfl
  rw [hde]
  simp only [Bool.false_eq_true, if_false]
  set w2 := (doSearch o q 6 (rate_limited st w)).2 with hw2
  have hw2g : w2.gCnt = w.gCnt := by rw [hw2, doSearch_gCnt, rate_limited_gCnt]
  have hw2log : w2.log = (rate_limited st w).log ++ [.searchEv 6 (rate_limited st w).now] := by
    rw [hw2, doSearch_log]
  rw [rag_spec]
  dsimp only
  simp only [hw2g, hg]
  set g2 := (doGen o (create_rag_prompt q (prepare_context docs)) w2).2 with hg2
  have hg2g : g2.gCnt = w.gCnt + 1 := by rw [hg2, doGen_gCnt, hw2g]
  have hg2log : g2.log =
      w2.log ++ [.genEv w2.now (w2.now + o.genDur w.gCnt) false] := by
    rw [hg2, doGen_log, hw2g]
    simp only [hg]
  rw [direct_spec, hg2g]
  cases hr : o.genRes (w.gCnt + 1) with
  | ok a =>
    simp only [hr]
    rw [doGen_log]
    simp only [hg2g, hr]
    rw [hg2log, hw2log]
    simp [evKinds_append, evKinds, List.append_assoc]
  | error e =>
    simp only [hr]
    obtain ⟨-, hflog⟩ :=
      fallback_effects o q st (doGen o (create_direct_prompt q) g2).2
    rw [hflog, doGen_log]
    simp only [hg2g, hr]
    rw [hg2log, hw2log]
    simp [evKinds_append, evKinds, List.append_assoc]

/-- C6 witness: a run in which the RAG generation call fails and the
direct retry succeeds shows exactly the claimed call sequence. -/
theorem C6_rag_failure_retries_direct_before_fallback_witness :
    evKinds ((query oRagFail envGood "q" stInit w5).2.2.log) =
      evKinds (rate_limited stInit w5).log ++ [.searchK 6, .genK false] ++
      (match oRagFail.genRes (w5.gCnt + 1) with
       | .ok _ => [EvKind.genK true]
       | .error _ => [EvKind.genK false, EvKind.searchK 3]) :=
  C6_rag_failure_retries_direct_before_fallback oRagFail envGood "q" stInit w5
    rfl [⟨"Article 14 guarantees equality.", some 3⟩] rfl (by decide) rfl

/-! ### Result-shape characterization (C1, C9) -/

/-- Possible results of the terminal fallback stage. -/
theorem fallbackCases (o : Oracle) (q : String) (st : ChatState) (w : World) :
    (∃ docs, o.searchRes w.sCnt = .ok docs ∧ docs ≠ [] ∧
       (fallback_approach o q st w).1 = ⟨digestAnswer q docs, docs⟩) ∨
    (fallback_approach o q st w).1 = ⟨noDocsMsg q, []⟩ ∨
    (fallback_approach o q st w).1 = ⟨unavailableMsg, []⟩ := by
  rw [fallback_spec]
  cases hs : o.searchRes w.sCnt with
  | error e => right; right; rfl
  | ok docs =>
    by_cases hd : docs.isEmpty
    · right; left; simp [hd]
    · left
      refine ⟨docs, rfl, by simpa using hd, ?_⟩
      simp [hd]

/-- Possible results of the direct path (and the fallback it may hand
over to). -/
theorem directCases (o : Oracle) (q : String) (st : ChatState) (w : World) :
    (∃ a, (direct_gemini_approach o q st w).1 = ⟨a ++ directNote, []⟩) ∨
    (∃ docs, o.searchRes w.sCnt = .ok docs ∧ docs ≠ [] ∧
       (direct_gemini_approach o q st w).1 = ⟨digestAnswer q docs, docs⟩) ∨
    (direct_gemini_approach o q st w).1 = ⟨noDocsMsg q, []⟩ ∨
    (direct_gemini_approach o q st w).1 = ⟨unavailableMsg, []⟩ := by
  rw [direct_spec]
  cases hg : o.genRes w.gCnt with
  | ok a => exact Or.inl ⟨a, rfl⟩
  | error e =>
    right
    have h := fallbackCases o q st (doGen o (create_direct_prompt q) w).2
    rw [doGen_sCnt] at h
    exact h

/-- Possible results of the RAG path (and the retries it may hand over
to). -/
theorem ragCases (o : Oracle) (q : String) (docs : List Doc)
    (st : ChatState) (w : World) :
    (∃ a ps, uniquePages docs = .ok ps ∧
       (rag_approach o q docs st w).1 = ⟨a ++ ragFooter ps docs.length, docs⟩) ∨
    (∃ a, (rag_approach o q docs st w).1 = ⟨a ++ directNote, []⟩) ∨
    (∃ ds, o.searchRes w.sCnt = .ok ds ∧ ds ≠ [] ∧
       (rag_approach o q docs st w).1 = ⟨digestAnswer q ds, ds⟩) ∨
    (rag_approach o q docs st w).1 = ⟨noDocsMsg q, []⟩ ∨
    (rag_approach o q docs st w).1 = ⟨unavailableMsg, []⟩ := by
  rw [rag_spec]
  dsimp only
  cases hg : o.genRes w.gCnt with
  | error e =>
    right
    have h := directCases o q st
      (doGen o (create_rag_prompt q (prepare_context docs)) w).2
    rw [doGen_sCnt] at h
    exact h
  | ok a =>
    cases hf : format_rag_answer a docs with
    | ok fa =>
      simp only [hf]
      left
      have hex : ∃ ps, uniquePages docs = .ok ps ∧
          fa = a ++ ragFooter ps docs.length := by
        unfold format_rag_answer at hf
        cases hp : uniquePages docs with
        | error e2 => rw [hp] at hf; cases hf
        | ok ps =>
          rw [hp] at hf
          refine ⟨ps, rfl, ?_⟩
          injection hf with h
          exact h.symm
      obtain ⟨ps, hp, hfa⟩ := hex
      exact ⟨a, ps, hp, by rw [hfa]⟩
    | error e2 =>
      simp only [hf]
      right
      have h := directCases o q
        { st with lastCallTime :=
            (doGen o (create_rag_prompt q (prepare_context docs)) w).2.now }
        (doGen o (create_rag_prompt q (prepare_context docs)) w).2
      rw [doGen_sCnt] at h
      exact h

/-- Initialization consumes no retrieval calls. -/
theorem initChatbot_sCnt (o : Oracle) (env : Env) (st : ChatState) (w : World) :
    (initChatbot o env st w).2.2.sCnt = w.sCnt := by
  simp only [initChatbot, initChatbotE, check_index_exists, get_vector_store,
    doList, doGen]
  repeat' split
  all_goals rfl

/-- Possible results of the query body: one of the five terminal
answer shapes, with non-empty sources tied to the corresponding
retrieval response. -/
theorem queryBodyCases (o : Oracle) (q : String) (st : ChatState) (w : World) :
    (∃ docs a ps, o.searchRes w.sCnt = .ok docs ∧ docs ≠ [] ∧
       uniquePages docs = .ok ps ∧
       (queryBody o q st w).1 = ⟨a ++ ragFooter ps docs.length, docs⟩) ∨
    (∃ a, (queryBody o q st w).1 = ⟨a ++ directNote, []⟩) ∨
    (∃ docs, o.searchRes (w.sCnt + 1) = .ok docs ∧ docs ≠ [] ∧
       (queryBody o q st w).1 = ⟨digestAnswer q docs, docs⟩) ∨
    (queryBody o q st w).1 = ⟨noDocsMsg q, []⟩ ∨
    (queryBody o q st w).1 = ⟨unavailableMsg, []⟩ := by
  rw [queryBody_spec]
  set w2 := (doSearch o q 6 (rate_limited st w)).2 with hw2
  have hw2s : w2.sCnt = w.sCnt + 1 := by rw [hw2, doSearch_sCnt, rate_limited_sCnt]
  cases hs : o.searchRes w.sCnt with
  | error e =>
    have h := fallbackCases o q st w2
    rw [hw2s] at h
    rcases h with ⟨docs, h1, h2, h3⟩ | h | h
    · exact Or.inr (Or.inr (Or.inl ⟨docs, h1, h2, h3⟩))
    · exact Or.inr (Or.inr (Or.inr (Or.inl h)))
    · exact Or.inr (Or.inr (Or.inr (Or.inr h)))
  | ok docs =>
    by_cases hd : docs.isEmpty
    · simp only [hd, if_true]
      have h := directCases o q st w2
      rw [hw2s] at h
      rcases h with ⟨a, h⟩ | ⟨ds, h1, h2, h3⟩ | h | h
      · exact Or.inr (Or.inl ⟨a, h⟩)
      · exact Or.inr (Or.inr (Or.inl ⟨ds, h1, h2, h3⟩))
      · exact Or.inr (Or.inr (Or.inr (Or.inl h)))
      · exact Or.inr (Or.inr (Or.inr (Or.inr h)))
    · simp only [hd, if_false, Bool.false_eq_true]
      have h := ragCases o q docs st w2
      rw [hw2s] at h
      rcases h with ⟨a, ps, hp, h⟩ | ⟨a, h⟩ | ⟨ds, h1, h2, h3⟩ | h | h
      · exact Or.inl ⟨docs, a, ps, rfl, by simpa using hd, hp, h⟩
      · exact Or.inr (Or.inl ⟨a, h⟩)
      · exact Or.inr (Or.inr (Or.inl ⟨ds, h1, h2, h3⟩))
      · exact Or.inr (Or.inr (Or.inr (Or.inl h)))
      · exact Or.inr (Or.inr (Or.inr (Or.inr h)))

/-- Possible results of `query`: the six terminal answer shapes. -/
theorem queryCases (o : Oracle) (env : Env) (q : String)
    (st : ChatState) (w : World) :
    (query o env q st w).1 = ⟨initFailedMsg, []⟩ ∨
    (∃ docs a ps, o.searchRes w.sCnt = .ok docs ∧ docs ≠ [] ∧
       uniquePages docs = .ok ps ∧
       (query o env q st w).1 = ⟨a ++ ragFooter ps docs.length, docs⟩) ∨
    (∃ a, (query o env q st w).1 = ⟨a ++ directNote, []⟩) ∨
    (∃ docs, o.searchRes (w.sCnt + 1) = .ok docs ∧ docs ≠ [] ∧
       (query o env q st w).1 = ⟨digestAnswer q docs, docs⟩) ∨
    (query o env q st w).1 = ⟨noDocsMsg q, []⟩ ∨
    (query o env q st w).1 = ⟨unavailableMsg, []⟩ := by
  by_cases hst : st.initialized = true
  · simp only [query, hst, if_true]
    exact Or.inr (queryBodyCases o q st w)
  · have hst2 : st.initialized = false := by
      cases h : st.initialized
      · rfl
      · exact absurd h hst
    simp only [query, hst2, Bool.false_eq_true, if_false]
    by_cases hi : (initChatbot o env st w).1 = true
    · simp only [hi, if_true]
      have h := queryBodyCases o q (initChatbot o env st w).2.1
        (initChatbot o env st w).2.2
      rw [initChatbot_sCnt] at h
      exact Or.inr h
    · have hi2 : (initChatbot o env st w).1 = false := by
        cases h : (initChatbot o env st w).1
        · rfl
        · exact absurd h hi
      simp only [hi2, Bool.false_eq_true, if_false]
      exact Or.inl trivial

/-- C1: `query` is a total function of the question, the collaborator
behaviours and the state — every `except` of the source is modelled by
an explicit branch, so no exception escapes — and for every question
string (including the empty string: `q` is arbitrary) and every
combination of retrieval/generation successes and failures it returns
one of six well-formed `AnswerResult` shapes, each with an answer text
and a `source_documents` list.  The terminal fallback contributes only
the digest, no-documents and unavailable shapes, whose construction is
pure and cannot itself fail. -/
theorem C1_query_total_wellformed (o : Oracle) (env : Env) (q : String)
    (st : ChatState) (w : World) :
    (query o env q st w).1 = ⟨initFailedMsg, []⟩ ∨
    (∃ docs a ps, o.searchRes w.sCnt = .ok docs ∧ docs ≠ [] ∧
       uniquePages docs = .ok ps ∧
       (query o env q st w).1 = ⟨a ++ ragFooter ps docs.length, docs⟩) ∨
    (∃ a, (query o env q st w).1 = ⟨a ++ directNote, []⟩) ∨
    (∃ docs, o.searchRes (w.sCnt + 1) = .ok docs ∧ docs ≠ [] ∧
       (query o env q st w).1 = ⟨digestAnswer q docs, docs⟩) ∨
    (query o env q st w).1 = ⟨noDocsMsg q, []⟩ ∨
    (query o env q st w).1 = ⟨unavailableMsg, []⟩ :=
  queryCases o env q st w

/-- C9: the returned `source_documents` list is non-empty only in the
two document-bearing outcomes: a successful RAG answer carrying exactly
the `k=6` retrieved set, or the terminal-fallback digest carrying
exactly the reduced `k=3` set; the direct path, the
initialization-failure message and both terminal static messages all
return `[]` (instead of a hypothesis, the first disjunct records the
empty-sources case explicitly). -/
theorem C9_nonempty_sources_origin (o : Oracle) (env : Env) (q : String)
    (st : ChatState) (w : World) :
    (query o env q st w).1.source_documents = [] ∨
    (∃ docs a ps, o.searchRes w.sCnt = .ok docs ∧ docs ≠ [] ∧
       uniquePages docs = .ok ps ∧
       (query o env q st w).1 = ⟨a ++ ragFooter ps docs.length, docs⟩) ∨
    (∃ docs, o.searchRes (w.sCnt + 1) = .ok docs ∧ docs ≠ [] ∧
       (query o env q st w).1 = ⟨digestAnswer q docs, docs⟩) := by
  rcases queryCases o env q st w with h | h | ⟨a, h⟩ | h | h | h
  · left; rw [h]
  · right; left; exact h
  · left; rw [h]
  · right; right; exact h
  · left; rw [h]
  · left; rw [h]

/-- When `sorted(list(set(...)))` succeeds, the produced page list is
ascending and duplicate-free. -/
theorem uniquePages_sorted_nodup (docs : List Doc) (ps : List (Option Nat))
    (hp : uniquePages docs = .ok ps) :
    List.Pairwise pageLe ps ∧ ps.Nodup := by
  unfold uniquePages at hp
  dsimp only at hp
  split at hp
  · rename_i hlen
    injection hp with hp
    subst hp
    constructor
    · cases hps : (docs.map Doc.page).dedup with
      | nil => exact List.Pairwise.nil
      | cons x xs =>
        cases xs with
        | nil => simp
        | cons y ys => rw [hps] at hlen; simp at hlen
    · exact List.nodup_dedup _
  · split at hp
    · rename_i hall
      injection hp with hp
      subst hp
      constructor
      · rw [List.pairwise_map]
        have hsorted : List.Sorted (· ≤ ·)
            (List.insertionSort (· ≤ ·) (((docs.map Doc.page).dedup).filterMap id)) :=
          List.sorted_insertionSort _ _
        exact hsorted.imp (fun h => h)
      · have h1 : ((docs.map Doc.page).dedup).Nodup := List.nodup_dedup _
        have h2 : (((docs.map Doc.page).dedup).filterMap id).Nodup := by
          refine h1.filterMap ?_
          intro a a' b ha hb
          rw [id] at ha hb
          rw [Option.mem_def] at ha hb
          rw [ha, hb]
        have h3 : (List.insertionSort (· ≤ ·)
            (((docs.map Doc.page).dedup).filterMap id)).Nodup :=
          ((List.perm_insertionSort _ _).nodup_iff).mpr h2
        exact h3.map (Option.some_injective _)
    · cases hp

/-- C8 (amended): when retrieval returns at least one document, the
RAG generation call succeeds, and the retrieved documents' `page`
metadata is homogeneous (so that Python's `sorted` on the mixed set
does not raise — the unguarded failure shown in the counterexample),
the result carries exactly the retrieved set as sources (its length
that of the `k=6` retrieval, at most 6 by the gateway contract taken
as hypothesis), and the answer text is the generated text followed by
the citation footer listing the deduplicated page identifiers in
ascending order, capped to the first 5 shown, with the count of
documents analyzed. -/
theorem C8_rag_success_sources_and_footer (o : Oracle) (env : Env) (q : String)
    (st : ChatState) (w : World) (hst : st.initialized = true)
    (docs : List Doc) (hs : o.searchRes w.sCnt = .ok docs) (hne : docs ≠ [])
    (a : String) (hg : o.genRes w.gCnt = .ok a)
    (ps : List (Option Nat)) (hp : uniquePages docs = .ok ps)
    (hk : docs.length ≤ 6) :
    (query o env q st w).1.source_documents = docs ∧
    (query o env q st w).1.source_documents.length = docs.length ∧
    docs.length ≤ 6 ∧
    (query o env q st w).1.answer = a ++ ragFooter ps docs.length ∧
    List.Pairwise pageLe ps ∧ ps.Nodup := by
  have hq := query_dispatch o env q st w hst docs hs
  have hde : docs.isEmpty = false := by
    cases docs with
    | nil => exact absurd rfl hne
    | cons d ds => rfl
  rw [hde] at hq
  simp only [Bool.false_eq_true, if_false] at hq
  rw [hq, rag_spec]
  dsimp only
  have hw2g : (doSearch o q 6 (rate_limited st w)).2.gCnt = w.gCnt := by
    rw [doSearch_gCnt, rate_limited_gCnt]
  simp only [hw2g, hg]
  unfold format_rag_answer
  simp only [hp]
  obtain ⟨hpair, hnodup⟩ := uniquePages_sorted_nodup docs ps hp
  exact ⟨trivial, trivial, hk, trivial, hpair, hnodup⟩

/-- C8 witness: a healthy single-document run yields that document as
the sole source and the footer with its page. -/
theorem C8_rag_success_sources_and_footer_witness :
    (query oGood envGood "q" stInit w5).1.source_documents =
      [⟨"Article 14 guarantees equality.", some 3⟩] ∧
    (query oGood envGood "q" stInit w5).1.source_documents.length =
      [(⟨"Article 14 guarantees equality.", some 3⟩ : Doc)].length ∧
    [(⟨"Article 14 guarantees equality.", some 3⟩ : Doc)].length ≤ 6 ∧
    (query oGood envGood "q" stInit w5).1.answer =
      "ANS" ++ ragFooter [some 3]
        [(⟨"Article 14 guarantees equality.", some 3⟩ : Doc)].length ∧
    List.Pairwise pageLe [some 3] ∧ ([some 3] : List (Option Nat)).Nodup :=
  C8_rag_success_sources_and_footer oGood envGood "q" stInit w5 rfl
    [⟨"Article 14 guarantees equality.", some 3⟩] rfl (by decide)
    "ANS" rfl [some 3] rfl (by decide)

/-- C8 counterexample: retrieval returns two documents, one with page
3 and one whose metadata lacks the page key; the generation call
succeeds, yet the claimed result (sources = the retrieved set) does
not hold: `sorted` raises on the mixed `int`/`'N/A'` set inside
`_format_rag_answer`, the exception is caught, and the direct path
returns empty sources instead. -/
theorem C8_counterexample_mixed_page_metadata :
    oMixedPages.searchRes 0 = .ok [⟨"a", some 3⟩, ⟨"b", none⟩] ∧
    oMixedPages.genRes 0 = .ok "ANS" ∧
    (query oMixedPages envGood "q" stInit w5).1.source_documents = [] ∧
    ([] : List Doc) ≠ [⟨"a", some 3⟩, ⟨"b", none⟩] := by
  refine ⟨rfl, rfl, ?_, by decide⟩
  have hf : format_rag_answer "ANS" [⟨"a", some 3⟩, ⟨"b", none⟩] = .error () := rfl
  norm_num [query, queryBody, stInit, w5, rate_limited, min_call_interval,
    doSleep, doSearch, doGen, oMixedPages, oGood, rag_approach,
    direct_gemini_approach, fallback_approach, has_relevant_documents, hf,
    format_direct_answer]
